import Mathlib

/-!
Verification development for the BrewMetric inventory tracker.

The definitions below are a shallow embedding of the authorization and
accountability core of the application: the `AuthManager` static methods
of src/auth/auth.py, the SQLAlchemy models of src/database/database.py
(tables become lists of rows, a committed transaction becomes a pure
state-to-state function), the waste write-off path of src/ui/waste_log.py
and the login/audit path of src/ui/main_window.py and src/ui/login_window.py.
Machine floats of the source (item and waste quantities) are embedded as
rationals; the randomized bcrypt salt and the bcrypt digest function are
universally quantified parameters.
-/

namespace BrewMetric

/-- Modelled from the spec: config.py is not under src/. Section 3 of the
spec fixes role values to the set containing admin and staff, matching
the comment on the role column in src/database/database.py. -/
def ROLE_ADMIN : String := "admin"

/-- Modelled from the spec: config.py is not under src/; the staff role
string, from the same fixed role set. -/
def ROLE_STAFF : String := "staff"

/-- Modelled from the spec: config.py is not under src/; section 4.1 gives
the default minimum password length 8. -/
def PASSWORD_MIN_LENGTH : Nat := 8

/-- Row of the users table (src/database/database.py, class User).
Timestamps are abstracted to an optional tick; last_login is NULLable. -/
structure User where
  id : Nat
  username : String
  email : String
  password_hash : String
  full_name : String
  role : String
  is_active : Bool
  last_login : Option Nat
deriving Repr, DecidableEq

/-- Row of the inventory_items table, restricted to the fields the waste
write-off path reads or writes (src/database/database.py, class
InventoryItem). Float quantity is embedded as a rational. -/
structure InventoryItem where
  id : Nat
  quantity : ℚ
  is_deleted : Bool
deriving Repr, DecidableEq

/-- Row of the waste_logs table (src/database/database.py, class WasteLog). -/
structure WasteLogRow where
  inventory_item_id : Nat
  user_id : Nat
  quantity : ℚ
  reason : String
  notes : String
deriving Repr, DecidableEq

/-- Row of the audit_trails table, restricted to the fields written by
MainWindow.log_audit_action (src/database/database.py, class AuditTrail). -/
structure AuditTrailRow where
  user_id : Nat
  inventory_item_id : Option Nat
  action : String
  entity_type : String
  entity_id : Nat
  description : Option String
deriving Repr, DecidableEq

/-- The committed database state: one list of rows per table. -/
structure DBState where
  users : List User
  items : List InventoryItem
  waste_logs : List WasteLogRow
  audit_trails : List AuditTrailRow
deriving Repr, DecidableEq

/-! ### CredentialVault: validators (src/auth/auth.py) -/

/-- Character class [a-z]. -/
def isLowerAZ (c : Char) : Bool := 'a' ≤ c && c ≤ 'z'

/-- Character class [A-Z]. -/
def isUpperAZ (c : Char) : Bool := 'A' ≤ c && c ≤ 'Z'

/-- Character class [0-9], the ASCII reading of the regex class of digits. -/
def isDigit09 (c : Char) : Bool := '0' ≤ c && c ≤ '9'

/-- The fixed special-character set of validate_password_strength. -/
def PASSWORD_SPECIALS : List Char := ['!', '@', '#', '$', '%', '^', '&', '*']

/-- AuthManager.validate_password_strength (src/auth/auth.py lines 52-85):
length at least PASSWORD_MIN_LENGTH, then one regex search per character
class, first failing rule reported. -/
def validate_password_strength (password : String) : Bool × String :=
  if password.length < PASSWORD_MIN_LENGTH then
    (false, "Password must be at least 8 characters long")
  else if !(password.data.any isLowerAZ) then
    (false, "Password must contain at least one lowercase letter")
  else if !(password.data.any isUpperAZ) then
    (false, "Password must contain at least one uppercase letter")
  else if !(password.data.any isDigit09) then
    (false, "Password must contain at least one digit")
  else if !(password.data.any (fun c => PASSWORD_SPECIALS.contains c)) then
    (false, "Password must contain at least one special character (!@#$%^&*)")
  else
    (true, "Password is strong")

/-- First character class of the username regex: [a-zA-Z_]. -/
def isUnameStart (c : Char) : Bool := isLowerAZ c || isUpperAZ c || c == '_'

/-- Later character class of the username regex: [a-zA-Z0-9_]. -/
def isUnameChar (c : Char) : Bool := isUnameStart c || isDigit09 c

/-- Anchored match of the regex of validate_username. -/
def usernameFormatOk (username : String) : Bool :=
  match username.data with
  | [] => false
  | c :: cs => isUnameStart c && cs.all isUnameChar

/-- AuthManager.validate_username (src/auth/auth.py lines 87-109). -/
def validate_username (username : String) : Bool × String :=
  if username.length < 3 || username.length > 50 then
    (false, "Username must be between 3 and 50 characters")
  else if !(usernameFormatOk username) then
    (false, "Username can only contain letters, numbers, and underscores (must start with letter or underscore)")
  else
    (true, "Username is valid")

/-- Local-part character class of the email regex: [a-zA-Z0-9._%+-]. -/
def isEmailLocalChar (c : Char) : Bool :=
  isLowerAZ c || isUpperAZ c || isDigit09 c ||
    c == '.' || c == '_' || c == '%' || c == '+' || c == '-'

/-- Domain character class of the email regex: [a-zA-Z0-9.-]. -/
def isEmailDomainChar (c : Char) : Bool :=
  isLowerAZ c || isUpperAZ c || isDigit09 c || c == '.' || c == '-'

/-- Structural splitting of a character list on a separator character,
used to evaluate the anchored email regex. -/
def splitOnChar (sep : Char) : List Char → List (List Char)
  | [] => [[]]
  | c :: cs =>
    match splitOnChar sep cs with
    | [] => if c == sep then [[], []] else [[c]]
    | r :: rs => if c == sep then [] :: r :: rs else (c :: r) :: rs

/-- Anchored match of the email regex of validate_email. Neither character
class contains the at sign, so the string must hold exactly one at sign;
the trailing letters-only group must follow the last dot of the domain,
with a nonempty domain remainder before it. -/
def emailFormatOk (email : String) : Bool :=
  match splitOnChar '@' email.data with
  | [localPart, domain] =>
    !localPart.isEmpty && localPart.all isEmailLocalChar &&
    domain.all isEmailDomainChar &&
    (match (splitOnChar '.' domain).reverse with
     | tld :: before :: rest =>
       decide (2 ≤ tld.length) && tld.all (fun c => isLowerAZ c || isUpperAZ c) &&
       !(before.isEmpty && rest.isEmpty)
     | _ => false)
  | _ => false

/-- AuthManager.validate_email (src/auth/auth.py lines 111-125). -/
def validate_email (email : String) : Bool × String :=
  if !(emailFormatOk email) then (false, "Invalid email format")
  else (true, "Email is valid")

/-! ### Directory: lookup, authentication, user creation -/

/-- The query filter User.username == username followed by first()
(src/auth/auth.py line 141 and line 196). -/
def findByUsername (users : List User) (username : String) : Option User :=
  users.find? (fun u => u.username == username)

/-- The query filter User.email == email followed by first()
(src/auth/auth.py line 201). -/
def findByEmail (users : List User) (email : String) : Option User :=
  users.find? (fun u => u.email == email)

/-- AuthManager.authenticate_user (src/auth/auth.py lines 127-155): look up
by username, fail closed on absence, inactivity, or password mismatch.
The bcrypt check of verify_password is the parameter checkpw. -/
def authenticate_user (checkpw : String → String → Bool)
    (users : List User) (username password : String) : Option User :=
  match findByUsername users username with
  | none => none
  | some user =>
    if !user.is_active then none
    else if !(checkpw password user.password_hash) then none
    else some user

/-- The row constructed and inserted by AuthManager.create_user on success
(src/auth/auth.py lines 206-217); the surrogate id models the
autoincrement primary key, and hashFn is hash_password. -/
def new_user (hashFn : String → String) (nextId : Nat)
    (username email password full_name role : String) : User :=
  { id := nextId, username := username, email := email,
    password_hash := hashFn password, full_name := full_name, role := role,
    is_active := true, last_login := none }

/-- AuthManager.create_user (src/auth/auth.py lines 157-221): validate
username, email, password in that order, then both uniqueness checks,
then insert and commit. Returns the (success, message, user) triple of the
source together with the committed users table. -/
def create_user (hashFn : String → String) (users : List User)
    (username email password full_name role : String) :
    (Bool × String × Option User) × List User :=
  let v1 := validate_username username
  if !v1.1 then ((false, "Invalid username: " ++ v1.2, none), users)
  else
    let v2 := validate_email email
    if !v2.1 then ((false, "Invalid email: " ++ v2.2, none), users)
    else
      let v3 := validate_password_strength password
      if !v3.1 then ((false, "Weak password: " ++ v3.2, none), users)
      else if (findByUsername users username).isSome then
        ((false, "Username already exists", none), users)
      else if (findByEmail users email).isSome then
        ((false, "Email already exists", none), users)
      else
        let u := new_user hashFn (users.length + 1) username email password full_name role
        ((true, "User created successfully", some u), users ++ [u])

/-- AuthManager.create_default_admin (src/auth/auth.py lines 223-258): if a
user with the admin role exists, return it with no write; otherwise create
the documented default admin through create_user. -/
def create_default_admin (hashFn : String → String) (users : List User) :
    Option User × List User :=
  match users.find? (fun u => u.role == ROLE_ADMIN) with
  | some existing_admin => (some existing_admin, users)
  | none =>
    let r := create_user hashFn users "admin" "admin@brewmetric.local"
      "Admin@123456" "Administrator" ROLE_ADMIN
    if r.1.1 then (r.1.2.2, r.2) else (none, r.2)

/-! ### Authorizer (src/auth/auth.py, has_permission) -/

/-- The staff allow-list of AuthManager.has_permission
(src/auth/auth.py lines 288-295). -/
def staff_allowed : List String :=
  ["view_inventory", "add_item", "adjust_stock", "record_waste",
   "view_activity", "export_inventory"]

/-- AuthManager.has_permission (src/auth/auth.py lines 260-298): no user is
always denied, admin is always permitted, staff is permitted on the fixed
allow-list, any other role falls through to denial. -/
def has_permission (user : Option User) (action : String) : Bool :=
  match user with
  | none => false
  | some u =>
    if u.role == ROLE_ADMIN then true
    else if u.role == ROLE_STAFF then staff_allowed.contains action
    else false

/-! ### CredentialVault: bcrypt hashing -/

/-- A bcrypt hash value: the salt generated at hashing time together with
the digest; the bcrypt string format stores both. -/
structure BcryptHash where
  salt : String
  digest : String
deriving Repr, DecidableEq

/-- AuthManager.hash_password (src/auth/auth.py lines 20-33). Modelled from
the bcrypt library contract: hashpw(password, salt) produces a hash
embedding the salt and the digest of the salted password; the digest
function and the freshly generated salt are parameters. -/
def hash_password (bcryptDigest : String → String → String)
    (salt password : String) : BcryptHash :=
  { salt := salt, digest := bcryptDigest salt password }

/-- AuthManager.verify_password (src/auth/auth.py lines 35-50). Modelled
from the bcrypt library contract: checkpw re-derives the digest of the
candidate password under the salt stored in the hash and compares. -/
def verify_password (bcryptDigest : String → String → String)
    (plain : String) (hashed : BcryptHash) : Bool :=
  bcryptDigest hashed.salt plain == hashed.digest

/-! ### InventoryLedger: the waste write-off path (src/ui/waste_log.py) -/

/-- WasteDialog.accept (src/ui/waste_log.py lines 181-192): the only
rejection is a combo box with no selected item; otherwise the dialog
closes accepted carrying the request fields. -/
def waste_dialog_accept (currentIndex : Int) (itemId : Nat) (quantity : ℚ)
    (reason notes : String) : Option WasteLogRow :=
  if currentIndex < 0 then none
  else some { inventory_item_id := itemId, user_id := 0, quantity := quantity,
              reason := reason, notes := notes }

/-- The committed transaction of WasteLogPage.show_add_waste_dialog
(src/ui/waste_log.py lines 96-117): build the WasteLog row, clamp the item
quantity at zero, add and commit; an exception (item lookup returning no
row) rolls the whole transaction back. No audit_trails row is written. -/
def waste_commit (st : DBState) (userId itemId : Nat) (quantity : ℚ)
    (reason notes : String) : DBState :=
  match st.items.find? (fun it => it.id == itemId) with
  | none => st
  | some _ =>
    { st with
      items := st.items.map (fun it =>
        if it.id == itemId then { it with quantity := max 0 (it.quantity - quantity) }
        else it),
      waste_logs := st.waste_logs ++
        [{ inventory_item_id := itemId, user_id := userId, quantity := quantity,
           reason := reason, notes := notes }] }

/-- A sequence of committed waste write-offs against one item. -/
def waste_commit_seq (st : DBState) (userId itemId : Nat) (ws : List ℚ)
    (reason notes : String) : DBState :=
  match ws with
  | [] => st
  | w :: rest => waste_commit_seq (waste_commit st userId itemId w reason notes)
      userId itemId rest reason notes

/-- Read-back of the on-hand quantity of one item, as the waste path reads
it (query by primary key). -/
def getItemQuantity (st : DBState) (itemId : Nat) : Option ℚ :=
  (st.items.find? (fun it => it.id == itemId)).map (fun it => it.quantity)

/-- Count of audit_trails rows with action WASTE for one item. -/
def countWasteAudit (st : DBState) (itemId : Nat) : Nat :=
  (st.audit_trails.filter
    (fun a => a.action == "WASTE" && a.inventory_item_id == some itemId)).length

/-- Count of committed waste_logs rows for one item. -/
def countWasteLogs (st : DBState) (itemId : Nat) : Nat :=
  (st.waste_logs.filter (fun w => w.inventory_item_id == itemId)).length

/-! ### AuditLedger and the login path -/

/-- The audit_trails row built by MainWindow.log_audit_action
(src/ui/main_window.py lines 255-288) for the LOGIN event fired in
MainWindow.__init__ (line 52). -/
def login_audit_row (u : User) : AuditTrailRow :=
  { user_id := u.id, inventory_item_id := none, action := "LOGIN",
    entity_type := "User", entity_id := u.id,
    description := some ("User " ++ u.username ++ " logged in") }

/-- The in-memory session slot of AuthManager (src/auth/auth.py lines
16-18 and 300-326). -/
structure SessionState where
  current_user : Option User
deriving Repr, DecidableEq

/-- The successful-login path: LoginWindow.authenticate_user runs
AuthManager.authenticate_user; on a user, LoginWindow.on_login_complete
(src/ui/login_window.py lines 274-291) stores the current user and the
MainWindow constructor logs the LOGIN audit action; on none, nothing
changes. No users-table row is written anywhere on this path. -/
def login_flow (checkpw : String → String → Bool) (st : DBState)
    (sess : SessionState) (username password : String) :
    DBState × SessionState :=
  match authenticate_user checkpw st.users username password with
  | none => (st, sess)
  | some u =>
    ({ st with audit_trails := st.audit_trails ++ [login_audit_row u] },
     { current_user := some u })

/-! ### Concrete fixtures used by witnesses and counterexamples -/

/-- A concrete admin user. -/
def adminUser0 : User :=
  { id := 1, username := "admin", email := "admin@brewmetric.local",
    password_hash := "h", full_name := "Administrator", role := "admin",
    is_active := true, last_login := none }

/-- A concrete active staff user whose stored hash is the string h. -/
def staffUser0 : User :=
  { id := 2, username := "alice", email := "alice@x.com", password_hash := "h",
    full_name := "Alice", role := "staff", is_active := true, last_login := none }

/-- A concrete deactivated staff user. -/
def inactiveUser0 : User :=
  { id := 3, username := "carol", email := "carol@x.com", password_hash := "h",
    full_name := "Carol", role := "staff", is_active := false, last_login := none }

/-- A concrete user whose role string is outside the fixed role set. -/
def managerUser0 : User :=
  { id := 4, username := "bob", email := "bob@x.com", password_hash := "h",
    full_name := "Bob", role := "manager", is_active := true, last_login := none }

/-- A concrete inventory item with five units on hand. -/
def item0 : InventoryItem := { id := 1, quantity := 5, is_deleted := false }

/-- A concrete committed database state with one item and no waste or audit
rows. -/
def st0 : DBState :=
  { users := [staffUser0, inactiveUser0], items := [item0],
    waste_logs := [], audit_trails := [] }

/-- A concrete stand-in for the bcrypt check used by witnesses: the stored
hash is compared to the plain password directly. -/
def checkpw0 : String → String → Bool := fun p h => p == h

/-- A concrete stand-in for the bcrypt hash function used by witnesses. -/
def hashFn0 : String → String := fun p => "H" ++ p

/-! ### Helper lemmas about create_user and the table lookups -/

lemma findByUsername_isSome_iff (users : List User) (username : String) :
    (findByUsername users username).isSome ↔ ∃ u ∈ users, u.username = username := by
  simp [findByUsername, List.find?_isSome]

lemma findByEmail_isSome_iff (users : List User) (email : String) :
    (findByEmail users email).isSome ↔ ∃ u ∈ users, u.email = email := by
  simp [findByEmail, List.find?_isSome]

lemma create_user_success_iff (hashFn : String → String) (users : List User)
    (username email password full_name role : String) :
    (create_user hashFn users username email password full_name role).1.1 = true ↔
      ((validate_username username).1 = true ∧ (validate_email email).1 = true ∧
       (validate_password_strength password).1 = true ∧
       ¬(findByUsername users username).isSome ∧ ¬(findByEmail users email).isSome) := by
  cases hv1 : (validate_username username).1 <;>
    cases hv2 : (validate_email email).1 <;>
      cases hv3 : (validate_password_strength password).1 <;>
        cases hu : (findByUsername users username).isSome <;>
          cases he : (findByEmail users email).isSome <;>
            simp [create_user, hv1, hv2, hv3, hu, he]

lemma create_user_fail_state (hashFn : String → String) (users : List User)
    (username email password full_name role : String)
    (h : (create_user hashFn users username email password full_name role).1.1 = false) :
    (create_user hashFn users username email password full_name role).2 = users := by
  cases hv1 : (validate_username username).1 <;>
    cases hv2 : (validate_email email).1 <;>
      cases hv3 : (validate_password_strength password).1 <;>
        cases hu : (findByUsername users username).isSome <;>
          cases he : (findByEmail users email).isSome <;>
            simp_all [create_user, hv1, hv2, hv3, hu, he]

lemma create_user_success_state (hashFn : String → String) (users : List User)
    (username email password full_name role : String)
    (h : (create_user hashFn users username email password full_name role).1.1 = true) :
    create_user hashFn users username email password full_name role =
      ((true, "User created successfully",
        some (new_user hashFn (users.length + 1) username email password full_name role)),
       users ++ [new_user hashFn (users.length + 1) username email password full_name role]) := by
  cases hv1 : (validate_username username).1 <;>
    cases hv2 : (validate_email email).1 <;>
      cases hv3 : (validate_password_strength password).1 <;>
        cases hu : (findByUsername users username).isSome <;>
          cases he : (findByEmail users email).isSome <;>
            simp_all [create_user, hv1, hv2, hv3, hu, he]

/-! ### Helper lemmas about the waste write-off transaction -/

lemma waste_update_id (itemId : Nat) (w : ℚ) (it : InventoryItem) :
    (if it.id == itemId then { it with quantity := max 0 (it.quantity - w) }
     else it).id = it.id := by
  split <;> rfl

lemma find?_waste_items (items : List InventoryItem) (itemId : Nat) (w : ℚ) :
    (items.map (fun it => if it.id == itemId
        then { it with quantity := max 0 (it.quantity - w) } else it)).find?
      (fun it => it.id == itemId)
    = (items.find? (fun it => it.id == itemId)).map
        (fun it => if it.id == itemId
          then { it with quantity := max 0 (it.quantity - w) } else it) := by
  rw [List.find?_map]
  have hp : ((fun it : InventoryItem => it.id == itemId) ∘
      (fun it => if it.id == itemId
        then { it with quantity := max 0 (it.quantity - w) } else it)) =
      (fun it : InventoryItem => it.id == itemId) := by
    funext it
    simp only [Function.comp_apply, waste_update_id]
  rw [hp]

lemma waste_commit_of_found (st : DBState) (userId itemId : Nat) (w : ℚ)
    (reason notes : String) (item : InventoryItem)
    (hfind : st.items.find? (fun it => it.id == itemId) = some item) :
    getItemQuantity (waste_commit st userId itemId w reason notes) itemId =
      some (max 0 (item.quantity - w)) ∧
    (waste_commit st userId itemId w reason notes).waste_logs =
      st.waste_logs ++
        [{ inventory_item_id := itemId, user_id := userId, quantity := w,
           reason := reason, notes := notes }] ∧
    (waste_commit st userId itemId w reason notes).audit_trails = st.audit_trails := by
  have hid := List.find?_some hfind
  unfold waste_commit
  rw [hfind]
  refine ⟨?_, rfl, rfl⟩
  simp only [getItemQuantity, find?_waste_items, hfind, Option.map_some', hid, if_true]

lemma waste_commit_audit (st : DBState) (userId itemId : Nat) (w : ℚ)
    (reason notes : String) :
    (waste_commit st userId itemId w reason notes).audit_trails = st.audit_trails := by
  unfold waste_commit
  cases st.items.find? (fun it => it.id == itemId) <;> rfl

lemma clamp_clamp (q w s : ℚ) (hs : 0 ≤ s) :
    max 0 (max 0 (q - w) - s) = max 0 (q - (w + s)) := by
  rcases le_total 0 (q - w) with h | h
  · rw [max_eq_right h]
    congr 1
    ring
  · have h1 : max 0 (q - w) = 0 := max_eq_left h
    rw [h1]
    have h2 : (0 : ℚ) - s ≤ 0 := by linarith
    have h3 : q - (w + s) ≤ 0 := by linarith
    rw [max_eq_left h2, max_eq_left h3]

/-! ### Claim theorems -/

/-- C3: the permission check is a pure function of user and action: an
admin-role user is permitted every action; a staff-role user is permitted
exactly the actions of the fixed allow-list; with no user every action is
denied. -/
theorem C3_permission_cases (action : String) :
    (∀ u : User, u.role = "admin" → has_permission (some u) action = true) ∧
    (∀ u : User, u.role = "staff" →
      (has_permission (some u) action = true ↔
        action ∈ (["view_inventory", "add_item", "adjust_stock", "record_waste",
                   "view_activity", "export_inventory"] : List String))) ∧
    has_permission none action = false := by
  refine ⟨fun u hu => ?_, fun u hu => ?_, rfl⟩
  · simp [has_permission, ROLE_ADMIN, hu]
  · simp [has_permission, ROLE_ADMIN, ROLE_STAFF, hu, staff_allowed]

/-- Witness for C3 at the spec's own example action. -/
theorem C3_permission_cases_witness :
    has_permission (some adminUser0) "delete_item" = true ∧
    (has_permission (some staffUser0) "delete_item" = true ↔
      "delete_item" ∈ (["view_inventory", "add_item", "adjust_stock", "record_waste",
                        "view_activity", "export_inventory"] : List String)) ∧
    has_permission none "delete_item" = false :=
  ⟨(C3_permission_cases "delete_item").1 adminUser0 rfl,
   (C3_permission_cases "delete_item").2.1 staffUser0 rfl,
   (C3_permission_cases "delete_item").2.2⟩

/-- C10: the permission check is fail-closed for unknown roles: any user
whose role string is neither admin nor staff is denied every action. -/
theorem C10_unknown_role_denied (u : User) (action : String)
    (h1 : u.role ≠ "admin") (h2 : u.role ≠ "staff") :
    has_permission (some u) action = false := by
  simp [has_permission, ROLE_ADMIN, ROLE_STAFF, h1, h2]

/-- Witness for C10: a user with role manager is denied even an action on
the staff allow-list. -/
theorem C10_unknown_role_denied_witness :
    has_permission (some managerUser0) "view_inventory" = false :=
  C10_unknown_role_denied managerUser0 "view_inventory" (by decide) (by decide)

/-- C9: hash-then-verify round-trip: for every password meeting the
strength policy (and in fact every password), every salt and every digest
function, verifying the password against its own hash returns true. -/
theorem C9_verify_hash_roundtrip (bcryptDigest : String → String → String)
    (salt password : String)
    (h : (validate_password_strength password).1 = true) :
    verify_password bcryptDigest password
      (hash_password bcryptDigest salt password) = true := by
  simp [verify_password, hash_password]

/-- Witness for C9 at a concrete strong password, salt and digest
function. -/
theorem C9_verify_hash_roundtrip_witness :
    (validate_password_strength "Abcdef1!").1 = true ∧
    verify_password (fun s p => s ++ p) "Abcdef1!"
      (hash_password (fun s p => s ++ p) "somesalt" "Abcdef1!") = true :=
  ⟨by decide,
   C9_verify_hash_roundtrip (fun s p => s ++ p) "somesalt" "Abcdef1!" (by decide)⟩

/-- C4: authenticate returns none in each of the three failure cases, the
same value none in all of them, and returns the looked-up user exactly
when the username exists, the user is active and the password check
passes. -/
theorem C4_authenticate_fail_closed (checkpw : String → String → Bool)
    (users : List User) (username password : String) :
    (findByUsername users username = none →
      authenticate_user checkpw users username password = none) ∧
    (∀ u, findByUsername users username = some u → u.is_active = false →
      authenticate_user checkpw users username password = none) ∧
    (∀ u, findByUsername users username = some u → u.is_active = true →
      checkpw password u.password_hash = false →
      authenticate_user checkpw users username password = none) ∧
    (∀ u, findByUsername users username = some u → u.is_active = true →
      checkpw password u.password_hash = true →
      authenticate_user checkpw users username password = some u) := by
  refine ⟨fun h => ?_, fun u h ha => ?_, fun u h ha hc => ?_, fun u h ha hc => ?_⟩
  · simp [authenticate_user, h]
  · simp [authenticate_user, h, ha]
  · simp [authenticate_user, h, ha, hc]
  · simp [authenticate_user, h, ha, hc]

/-- Witness for C4: the three failure causes and the success case on a
concrete user table. -/
theorem C4_authenticate_fail_closed_witness :
    authenticate_user checkpw0 [staffUser0, inactiveUser0] "nobody" "h" = none ∧
    authenticate_user checkpw0 [staffUser0, inactiveUser0] "carol" "h" = none ∧
    authenticate_user checkpw0 [staffUser0, inactiveUser0] "alice" "wrong" = none ∧
    authenticate_user checkpw0 [staffUser0, inactiveUser0] "alice" "h" = some staffUser0 :=
  ⟨(C4_authenticate_fail_closed checkpw0 _ "nobody" "h").1 (by decide),
   (C4_authenticate_fail_closed checkpw0 _ "carol" "h").2.1 inactiveUser0 (by decide) rfl,
   (C4_authenticate_fail_closed checkpw0 _ "alice" "wrong").2.2.1 staffUser0 (by decide) rfl (by decide),
   (C4_authenticate_fail_closed checkpw0 _ "alice" "h").2.2.2 staffUser0 (by decide) rfl (by decide)⟩

/-- C5: createUser returns a failure and writes nothing when any format or
strength validation fails or the username or email already exists; only
when every check passes is the new user appended, storing the output of
the hash function rather than the plain password. -/
theorem C5_create_user_validation (hashFn : String → String) (users : List User)
    (username email password full_name role : String) :
    (((validate_username username).1 = false ∨ (validate_email email).1 = false ∨
      (validate_password_strength password).1 = false ∨
      (∃ u ∈ users, u.username = username) ∨ (∃ u ∈ users, u.email = email)) →
      (create_user hashFn users username email password full_name role).1.1 = false ∧
      (create_user hashFn users username email password full_name role).2 = users) ∧
    ((create_user hashFn users username email password full_name role).1.1 = true →
      create_user hashFn users username email password full_name role =
        ((true, "User created successfully",
          some (new_user hashFn (users.length + 1) username email password full_name role)),
         users ++ [new_user hashFn (users.length + 1) username email password full_name role]) ∧
      (new_user hashFn (users.length + 1) username email password full_name role).password_hash
        = hashFn password) := by
  constructor
  · intro hbad
    have hfail : (create_user hashFn users username email password full_name role).1.1 = false := by
      cases ht : (create_user hashFn users username email password full_name role).1.1 with
      | false => rfl
      | true =>
        exfalso
        rcases (create_user_success_iff hashFn users username email password full_name role).1
          ht with ⟨h1, h2, h3, h4, h5⟩
        rcases hbad with hb | hb | hb | hb | hb
        · simp [h1] at hb
        · simp [h2] at hb
        · simp [h3] at hb
        · exact h4 ((findByUsername_isSome_iff users username).2 hb)
        · exact h5 ((findByEmail_isSome_iff users email).2 hb)
    exact ⟨hfail, create_user_fail_state hashFn users username email password full_name role hfail⟩
  · intro hsucc
    exact ⟨create_user_success_state hashFn users username email password full_name role hsucc, rfl⟩

/-- Witness for C5: a too-short username is rejected with no write, and
the spec's scenario user alice is created with the hashed password. -/
theorem C5_create_user_validation_witness :
    ((create_user hashFn0 [] "ab" "alice@x.com" "Abcdef1!" "Alice" "staff").1.1 = false ∧
     (create_user hashFn0 [] "ab" "alice@x.com" "Abcdef1!" "Alice" "staff").2 = []) ∧
    (create_user hashFn0 [] "alice" "alice@x.com" "Abcdef1!" "Alice" "staff" =
      ((true, "User created successfully",
        some (new_user hashFn0 1 "alice" "alice@x.com" "Abcdef1!" "Alice" "staff")),
       [] ++ [new_user hashFn0 1 "alice" "alice@x.com" "Abcdef1!" "Alice" "staff"]) ∧
     (new_user hashFn0 1 "alice" "alice@x.com" "Abcdef1!" "Alice" "staff").password_hash
       = hashFn0 "Abcdef1!") :=
  ⟨(C5_create_user_validation hashFn0 [] "ab" "alice@x.com" "Abcdef1!" "Alice" "staff").1
     (Or.inl (by decide)),
   (C5_create_user_validation hashFn0 [] "alice" "alice@x.com" "Abcdef1!" "Alice" "staff").2
     (by decide)⟩

/-- C8: default-admin bootstrap is idempotent: when an admin-role user
exists it is returned with the table unchanged, and running the bootstrap
on the state it produced returns the same admin and the same table. -/
theorem C8_default_admin_idempotent (hashFn : String → String) (users : List User) :
    (∀ u0, users.find? (fun u => u.role == ROLE_ADMIN) = some u0 →
      create_default_admin hashFn users = (some u0, users)) ∧
    create_default_admin hashFn (create_default_admin hashFn users).2 =
      create_default_admin hashFn users := by
  constructor
  · intro u0 h
    unfold create_default_admin
    rw [h]
  · cases hfind : users.find? (fun u => u.role == ROLE_ADMIN) with
    | some u0 =>
      have h1 : create_default_admin hashFn users = (some u0, users) := by
        unfold create_default_admin; rw [hfind]
      rw [h1]
      exact h1
    | none =>
      cases hr : (create_user hashFn users "admin" "admin@brewmetric.local"
          "Admin@123456" "Administrator" ROLE_ADMIN).1.1 with
      | false =>
        have hstate := create_user_fail_state hashFn users "admin"
          "admin@brewmetric.local" "Admin@123456" "Administrator" ROLE_ADMIN hr
        have h1 : create_default_admin hashFn users = (none, users) := by
          unfold create_default_admin
          rw [hfind]
          simp [hr, hstate]
        rw [h1]
        exact h1
      | true =>
        have hstate := create_user_success_state hashFn users "admin"
          "admin@brewmetric.local" "Admin@123456" "Administrator" ROLE_ADMIN hr
        have h1 : create_default_admin hashFn users =
            (some (new_user hashFn (users.length + 1) "admin" "admin@brewmetric.local"
              "Admin@123456" "Administrator" ROLE_ADMIN),
             users ++ [new_user hashFn (users.length + 1) "admin" "admin@brewmetric.local"
              "Admin@123456" "Administrator" ROLE_ADMIN]) := by
          unfold create_default_admin
          rw [hfind, hstate]
          simp
        have hfind2 : (users ++ [new_user hashFn (users.length + 1) "admin"
            "admin@brewmetric.local" "Admin@123456" "Administrator" ROLE_ADMIN]).find?
              (fun u => u.role == ROLE_ADMIN) =
            some (new_user hashFn (users.length + 1) "admin" "admin@brewmetric.local"
              "Admin@123456" "Administrator" ROLE_ADMIN) := by
          rw [List.find?_append, hfind]
          simp [new_user]
        rw [h1]
        unfold create_default_admin
        rw [hfind2]

/-- Witness for C8: on a table already holding the admin user the bootstrap
returns it unchanged, and the two-call sequence from the empty table agrees
with the one-call result. -/
theorem C8_default_admin_idempotent_witness :
    create_default_admin hashFn0 [adminUser0] = (some adminUser0, [adminUser0]) ∧
    create_default_admin hashFn0 (create_default_admin hashFn0 []).2 =
      create_default_admin hashFn0 [] :=
  ⟨(C8_default_admin_idempotent hashFn0 [adminUser0]).1 adminUser0 (by decide),
   (C8_default_admin_idempotent hashFn0 []).2⟩

/-- C2: starting from on-hand quantity q0, a sequence of waste write-offs
with requested quantities ws leaves the item at max(0, q0 − sum ws), and
every committed WasteLog row stores the full requested quantity. -/
theorem C2_waste_quantity_clamp (st : DBState) (userId itemId : Nat)
    (ws : List ℚ) (reason notes : String) (q0 : ℚ)
    (hq : getItemQuantity st itemId = some q0) (h0 : 0 ≤ q0)
    (hws : ∀ w ∈ ws, 0 ≤ w) :
    getItemQuantity (waste_commit_seq st userId itemId ws reason notes) itemId =
      some (max 0 (q0 - ws.sum)) ∧
    (waste_commit_seq st userId itemId ws reason notes).waste_logs =
      st.waste_logs ++ ws.map (fun w =>
        { inventory_item_id := itemId, user_id := userId, quantity := w,
          reason := reason, notes := notes }) := by
  induction ws generalizing st q0 with
  | nil =>
    refine ⟨?_, by simp [waste_commit_seq]⟩
    simpa [waste_commit_seq, max_eq_right h0] using hq
  | cons w rest ih =>
    obtain ⟨item, hitem, hqty⟩ : ∃ item, st.items.find? (fun it => it.id == itemId) =
        some item ∧ item.quantity = q0 := by
      unfold getItemQuantity at hq
      cases hfind : st.items.find? (fun it => it.id == itemId) with
      | none => rw [hfind] at hq; simp at hq
      | some it =>
        rw [hfind] at hq
        simp at hq
        exact ⟨it, rfl, hq⟩
    obtain ⟨hq1, hw1, _⟩ := waste_commit_of_found st userId itemId w reason notes item hitem
    have hq1' : getItemQuantity (waste_commit st userId itemId w reason notes) itemId =
        some (max 0 (q0 - w)) := by rw [hq1, hqty]
    have hsum : 0 ≤ rest.sum :=
      List.sum_nonneg (fun x hx => hws x (List.mem_cons_of_mem _ hx))
    have hrest := ih (waste_commit st userId itemId w reason notes) (max 0 (q0 - w))
      hq1' (le_max_left 0 _) (fun x hx => hws x (List.mem_cons_of_mem _ hx))
    constructor
    · simp only [waste_commit_seq]
      rw [hrest.1]
      congr 1
      rw [clamp_clamp q0 w rest.sum hsum]
      simp [List.sum_cons]
    · simp only [waste_commit_seq]
      rw [hrest.2, hw1]
      simp [List.map_cons, List.append_assoc]

/-- Witness for C2 at the spec's own scenario: five on hand, requesting
eight leaves zero and stores a WasteLog row with quantity eight. -/
theorem C2_waste_quantity_clamp_witness :
    getItemQuantity (waste_commit_seq st0 2 1 [8] "expired" "") 1 =
      some (max 0 (5 - ([8] : List ℚ).sum)) ∧
    (waste_commit_seq st0 2 1 [8] "expired" "").waste_logs =
      st0.waste_logs ++ ([8] : List ℚ).map (fun w =>
        { inventory_item_id := 1, user_id := 2, quantity := w,
          reason := "expired", notes := "" }) :=
  C2_waste_quantity_clamp st0 2 1 [8] "expired" "" 5 (by decide) (by decide) (by decide)

/-- C1 counterexample: one committed waste write-off yields one WasteLog
row and zero AuditTrail rows with action WASTE: the waste path writes no
audit entry, so the two counts differ. -/
theorem C1_counterexample :
    countWasteLogs (waste_commit st0 2 1 2 "expired" "") 1 = 1 ∧
    countWasteAudit (waste_commit st0 2 1 2 "expired" "") 1 = 0 ∧
    countWasteAudit (waste_commit st0 2 1 2 "expired" "") 1 ≠
      countWasteLogs (waste_commit st0 2 1 2 "expired" "") 1 := by decide

/-- C1 amended: the quantity decrement and the WasteLog insert do commit in
one transactional scope, but the waste path writes no audit entry at all:
after any sequence of committed waste write-offs the audit_trails table is
untouched, while the count of committed WasteLog rows for the item grows by
the number of write-offs. -/
theorem C1_waste_audit_amended (st : DBState) (userId itemId : Nat) (ws : List ℚ)
    (reason notes : String)
    (h : (st.items.find? (fun it => it.id == itemId)).isSome = true) :
    (waste_commit_seq st userId itemId ws reason notes).audit_trails =
      st.audit_trails ∧
    countWasteLogs (waste_commit_seq st userId itemId ws reason notes) itemId =
      countWasteLogs st itemId + ws.length := by
  induction ws generalizing st with
  | nil => simp [waste_commit_seq]
  | cons w rest ih =>
    obtain ⟨item, hitem⟩ := Option.isSome_iff_exists.1 h
    obtain ⟨_, hw1, ha1⟩ := waste_commit_of_found st userId itemId w reason notes item hitem
    have hsome : ((waste_commit st userId itemId w reason notes).items.find?
        (fun it => it.id == itemId)).isSome = true := by
      unfold waste_commit
      rw [hitem]
      simp only [find?_waste_items, hitem, Option.map_some', Option.isSome_some]
    have hrest := ih (waste_commit st userId itemId w reason notes) hsome
    constructor
    · simp only [waste_commit_seq]
      rw [hrest.1, ha1]
    · simp only [waste_commit_seq]
      rw [hrest.2]
      unfold countWasteLogs
      rw [hw1, List.filter_append]
      simp [List.length_append]
      omega

/-- Witness for C1 amended: two write-offs from the concrete state leave the
audit trail empty and produce two WasteLog rows. -/
theorem C1_waste_audit_amended_witness :
    (waste_commit_seq st0 2 1 [2, 4] "expired" "").audit_trails =
      st0.audit_trails ∧
    countWasteLogs (waste_commit_seq st0 2 1 [2, 4] "expired" "") 1 =
      countWasteLogs st0 1 + 2 :=
  C1_waste_audit_amended st0 2 1 [2, 4] "expired" "" (by decide)

/-- C6 counterexample: a waste request whose quantity is zero, hence not
strictly positive, is accepted by the dialog and commits a WasteLog row:
it is not rejected and it does have side effects. -/
theorem C6_counterexample :
    (waste_dialog_accept 0 1 0 "expired" "").isSome = true ∧
    (waste_commit st0 2 1 0 "expired" "").waste_logs.length =
      st0.waste_logs.length + 1 ∧
    countWasteLogs (waste_commit st0 2 1 0 "expired" "") 1 = 1 := by decide

/-- C6 amended: the dialog rejects a request exactly when no item is
selected; the requested quantity is never validated, and an accepted
request with any quantity, zero included, commits a WasteLog row storing
that quantity (item existence and reason membership hold by construction
of the dialog's combo boxes). -/
theorem C6_waste_validation_amended (currentIndex : Int) (itemId userId : Nat)
    (q : ℚ) (reason notes : String) (st : DBState) (item : InventoryItem)
    (hitem : st.items.find? (fun it => it.id == itemId) = some item) :
    (waste_dialog_accept currentIndex itemId q reason notes = none ↔
      currentIndex < 0) ∧
    (waste_commit st userId itemId q reason notes).waste_logs =
      st.waste_logs ++
        [{ inventory_item_id := itemId, user_id := userId, quantity := q,
           reason := reason, notes := notes }] := by
  constructor
  · unfold waste_dialog_accept
    split
    · next hlt => simpa using hlt
    · next hge => simp [hge]
  · exact (waste_commit_of_found st userId itemId q reason notes item hitem).2.1

/-- Witness for C6 amended at the concrete state: an accepted zero-quantity
request appends the zero-quantity row. -/
theorem C6_waste_validation_amended_witness :
    (waste_dialog_accept 0 1 0 "expired" "" = none ↔ (0 : Int) < 0) ∧
    (waste_commit st0 2 1 0 "expired" "").waste_logs =
      st0.waste_logs ++
        [{ inventory_item_id := 1, user_id := 2, quantity := 0,
           reason := "expired", notes := "" }] :=
  C6_waste_validation_amended 0 1 2 0 "expired" "" st0 item0 (by decide)

/-- C7 counterexample: a successful login leaves the users table, and hence
the authenticated user's last_login field, completely unchanged: the code
never writes a last-login timestamp. -/
theorem C7_counterexample :
    authenticate_user checkpw0 st0.users "alice" "h" = some staffUser0 ∧
    (login_flow checkpw0 st0 { current_user := none } "alice" "h").1.users =
      st0.users ∧
    staffUser0.last_login = none ∧
    ∀ u ∈ (login_flow checkpw0 st0 { current_user := none } "alice" "h").1.users,
      u.last_login = none := by decide

/-- C7 amended: the login path performs no mutation of any User record:
the users table is unchanged by every login attempt; a successful login
only stores the user in the in-memory session slot and appends a LOGIN
audit row. -/
theorem C7_login_no_user_mutation (checkpw : String → String → Bool)
    (st : DBState) (sess : SessionState) (username password : String) :
    (login_flow checkpw st sess username password).1.users = st.users ∧
    ∀ u, authenticate_user checkpw st.users username password = some u →
      login_flow checkpw st sess username password =
        ({ st with audit_trails := st.audit_trails ++ [login_audit_row u] },
         { current_user := some u }) := by
  constructor
  · unfold login_flow
    cases authenticate_user checkpw st.users username password <;> rfl
  · intro u hu
    unfold login_flow
    rw [hu]

/-- Witness for C7 amended at the concrete state and a successful login. -/
theorem C7_login_no_user_mutation_witness :
    (login_flow checkpw0 st0 { current_user := none } "alice" "h").1.users =
      st0.users ∧
    login_flow checkpw0 st0 { current_user := none } "alice" "h" =
      ({ st0 with audit_trails := st0.audit_trails ++ [login_audit_row staffUser0] },
       { current_user := some staffUser0 }) :=
  ⟨(C7_login_no_user_mutation checkpw0 st0 { current_user := none } "alice" "h").1,
   (C7_login_no_user_mutation checkpw0 st0 { current_user := none } "alice" "h").2
     staffUser0 (by decide)⟩

end BrewMetric
